import Mathlib

/-!
Shallow embedding of the serverless e-commerce order pipeline
(order saga orchestrator, fraud / inventory / email consumers,
change-feed processor) and proofs of its specified properties.

Conventions of the embedding:
* exact decimal amounts and risk scores are rationals (`ℚ`);
* the DynamoDB orders and products tables are lists of records;
* the random jitter drawn inside the fraud scorer is an explicit
  parameter of the embedded function (the spec itself treats the
  score as a pure function of `(amount, customer_id, payment_method,
  jitter)`);
* side effects (writes, publishes, queue sends) are collected in an
  explicit effects record returned next to the HTTP response.
-/

namespace EcomSpec

deriving instance DecidableEq for Except

/-- A line item of a persisted order (`validated_items` entries built in
`create_order`, src/orders/handler.py): product id, quantity, unit price
and the computed subtotal. -/
structure OrderItem where
  product_id : String
  quantity : ℕ
  price : ℚ
  subtotal : ℚ
deriving Repr, DecidableEq

/-- An order record as written by `create_order` (src/orders/handler.py,
lines 258-267) and later mutated by the fraud consumer.  `fraud_score`
and `fraud_status` are absent (`none`) until the fraud consumer attaches
them. -/
structure Order where
  order_id : String
  customer_id : String
  timestamp : ℕ
  items : List OrderItem
  total_amount : ℚ
  status : String
  payment_id : String
  created_at : String
  fraud_score : Option ℚ
  fraud_status : Option String
deriving Repr, DecidableEq

/-- A Fraud-Check message `{order_id, customer_id, amount, payment_method}`
as parsed by the fraud consumer (src/fraud/handler.py, lines 50-53). -/
structure FraudMsg where
  order_id : String
  customer_id : String
  amount : ℚ
  payment_method : String
deriving Repr, DecidableEq

/-- Default risk threshold: `RISK_THRESHOLD = float(os.environ.get('RISK_THRESHOLD', '0.7'))`
(src/fraud/handler.py, line 22). -/
def RISK_THRESHOLD_default : ℚ := 0.7

/-- `customer_id.startswith('new-')` (src/fraud/handler.py, line 124),
modelled over the underlying character lists so that concrete instances
evaluate inside the kernel. -/
def startsWithNewTag (customer_id : String) : Bool :=
  "new-".data.isPrefixOf customer_id.data

/-- `analyze_fraud_risk` (src/fraud/handler.py, lines 92-140) with the
`random.uniform(-0.1, 0.1)` draw made an explicit `jitter` argument:
+0.3 if amount > 1000, else +0.2 if amount > 500; +0.4 for a customer id
starting with `new-`; +0.2 for payment method `crypto`; plus jitter;
clamped into [0, 1]. -/
def analyze_fraud_risk (customer_id : String) (amount : ℚ)
    (payment_method : String) (jitter : ℚ) : ℚ :=
  let s1 : ℚ := if amount > 1000 then 0.3 else if amount > 500 then 0.2 else 0
  let s2 : ℚ := s1 + (if startsWithNewTag customer_id then 0.4 else 0)
  let s3 : ℚ := s2 + (if payment_method = "crypto" then 0.2 else 0)
  let s4 : ℚ := s3 + jitter
  max 0 (min 1 s4)

/-- The attribute update both fraud paths perform:
`SET fraud_score = :score, fraud_status = :status`
(src/fraud/handler.py, lines 158-165 and 183-190).  No other attribute
of the order record is touched. -/
def setFraudFields (score : ℚ) (st : String) (o : Order) : Order :=
  { o with fraud_score := some score, fraud_status := some st }

/-- `update_item` keyed by order id on the orders table, modelled as a
pointwise map over the table. -/
def updateOrder (oid : String) (f : Order → Order) (table : List Order) :
    List Order :=
  table.map fun o => if o.order_id = oid then f o else o

/-- `handle_high_risk_transaction` (src/fraud/handler.py, lines 143-173):
writes the fraud score and fraud status `high_risk_pending_review`. -/
def handle_high_risk_transaction (oid : String) (score : ℚ)
    (table : List Order) : List Order :=
  updateOrder oid (setFraudFields score "high_risk_pending_review") table

/-- `handle_low_risk_transaction` (src/fraud/handler.py, lines 176-195):
writes the fraud score and fraud status `approved`. -/
def handle_low_risk_transaction (oid : String) (score : ℚ)
    (table : List Order) : List Order :=
  updateOrder oid (setFraudFields score "approved") table

/-- Processing of one Fraud-Check record by the fraud consumer's
`lambda_handler` (src/fraud/handler.py, lines 45-73): compute the risk
score, then route on `risk_score >= RISK_THRESHOLD`. -/
def processFraudRecord (threshold jitter : ℚ) (m : FraudMsg)
    (table : List Order) : List Order :=
  let score := analyze_fraud_risk m.customer_id m.amount m.payment_method jitter
  if score ≥ threshold then handle_high_risk_transaction m.order_id score table
  else handle_low_risk_transaction m.order_id score table

/-- Normal form of one fraud-record processing step: every order whose id
matches the message gets `fraud_score`/`fraud_status` overwritten with
values computed from the message alone; every other order, and every
other field, is untouched. -/
theorem processFraudRecord_eq (threshold jitter : ℚ) (m : FraudMsg)
    (table : List Order) :
    processFraudRecord threshold jitter m table =
      table.map (fun o =>
        if o.order_id = m.order_id then
          { o with
              fraud_score := some (analyze_fraud_risk m.customer_id m.amount
                m.payment_method jitter),
              fraud_status := some
                (if analyze_fraud_risk m.customer_id m.amount
                    m.payment_method jitter ≥ threshold then
                  "high_risk_pending_review" else "approved") }
        else o) := by
  unfold processFraudRecord handle_high_risk_transaction
    handle_low_risk_transaction updateOrder setFraudFields
  split <;> rename_i h
  · simp only [eq_true h, if_true]
  · simp only [eq_false h, if_false]

/-- The spec's risk-score formula (§4.2, §8), written from the spec's
words for comparison with the source's `analyze_fraud_risk`: the middle
amount band is stated as the interval `(500, 1000]`. -/
def specRiskScore (customer_id : String) (amount : ℚ)
    (payment_method : String) (jitter : ℚ) : ℚ :=
  max 0 (min 1
    ((if amount > 1000 then (0.3 : ℚ)
      else if 500 < amount ∧ amount ≤ 1000 then 0.2 else 0)
      + (if startsWithNewTag customer_id then 0.4 else 0)
      + (if payment_method = "crypto" then 0.2 else 0)
      + jitter))

/-- The concrete payment methods used in the worked examples differ. -/
theorem card_ne_crypto : ¬ (("card" : String) = "crypto") := by decide

/-- C1 counterexample: a high-risk Fraud-Check message (amount 1500, new
customer, card, zero jitter — score 0.7 ≥ default threshold 0.7) is
processed against an order whose lifecycle `status` is `confirmed`; the
resulting record's `status` is still `confirmed`, not
`high_risk_pending_review` — only `fraud_status` receives that value. -/
theorem C1_status_field_counterexample :
    analyze_fraud_risk "new-1" 1500 "card" 0 ≥ RISK_THRESHOLD_default ∧
    (processFraudRecord RISK_THRESHOLD_default 0
        ⟨"ord-1", "new-1", 1500, "card"⟩
        [⟨"ord-1", "new-1", 1, [], 1500, "confirmed", "pay-1", "t0",
          none, none⟩]).map Order.status = ["confirmed"] ∧
    ¬ ((processFraudRecord RISK_THRESHOLD_default 0
        ⟨"ord-1", "new-1", 1500, "card"⟩
        [⟨"ord-1", "new-1", 1, [], 1500, "confirmed", "pay-1", "t0",
          none, none⟩]).map Order.status = ["high_risk_pending_review"]) := by
  refine ⟨by norm_num [analyze_fraud_risk, startsWithNewTag,
    RISK_THRESHOLD_default, min_def, max_def, card_ne_crypto], ?_, ?_⟩ <;>
    simp [processFraudRecord_eq, analyze_fraud_risk, startsWithNewTag,
      RISK_THRESHOLD_default, min_def, max_def, card_ne_crypto]

/-- C1 (amended): for every Fraud-Check message, the fraud consumer sets
the matching order's `fraud_score` to the computed score and its
`fraud_status` to `high_risk_pending_review` when score ≥ threshold and
to `approved` otherwise; the order's lifecycle `status` field is left
unchanged. -/
theorem C1_fraud_classification (threshold jitter : ℚ) (m : FraudMsg)
    (table : List Order) :
    processFraudRecord threshold jitter m table =
      table.map (fun o =>
        if o.order_id = m.order_id then
          { o with
              fraud_score := some (analyze_fraud_risk m.customer_id m.amount
                m.payment_method jitter),
              fraud_status := some
                (if analyze_fraud_risk m.customer_id m.amount
                    m.payment_method jitter ≥ threshold then
                  "high_risk_pending_review" else "approved") }
        else o) ∧
    (processFraudRecord threshold jitter m table).map Order.status =
      table.map Order.status := by
  refine ⟨processFraudRecord_eq .., ?_⟩
  rw [processFraudRecord_eq, List.map_map]
  refine List.map_congr_left fun o _ => ?_
  by_cases h : o.order_id = m.order_id <;> simp [h, Function.comp]

/-- C2: re-processing the same Fraud-Check message (same jitter draw) is
idempotent — the second application leaves every order's fraud score and
fraud status at the same final values as the first. -/
theorem C2_fraud_reprocessing_idempotent (threshold jitter : ℚ)
    (m : FraudMsg) (table : List Order) :
    processFraudRecord threshold jitter m
        (processFraudRecord threshold jitter m table) =
      processFraudRecord threshold jitter m table := by
  rw [processFraudRecord_eq, processFraudRecord_eq, List.map_map]
  refine List.map_congr_left fun o _ => ?_
  by_cases h : o.order_id = m.order_id <;> simp [h, Function.comp]

/-- C3: the fraud risk score is a pure function of
`(amount, customer_id, payment_method, jitter)` equal to the spec's
formula (with the `(500, 1000]` band), always clamped into `[0, 1]`;
and for amount 1500, a new customer, card payment and zero jitter it is
exactly 0.7, which is classified high-risk at the default threshold. -/
theorem C3_risk_score_formula (customer_id payment_method : String)
    (amount jitter : ℚ) :
    analyze_fraud_risk customer_id amount payment_method jitter =
      specRiskScore customer_id amount payment_method jitter ∧
    0 ≤ analyze_fraud_risk customer_id amount payment_method jitter ∧
    analyze_fraud_risk customer_id amount payment_method jitter ≤ 1 ∧
    analyze_fraud_risk "new-1" 1500 "card" 0 = 0.7 ∧
    analyze_fraud_risk "new-1" 1500 "card" 0 ≥ RISK_THRESHOLD_default := by
  refine ⟨?_, le_max_left _ _, max_le (by norm_num) (min_le_left _ _),
    by norm_num [analyze_fraud_risk, startsWithNewTag, min_def, max_def,
      card_ne_crypto],
    by norm_num [analyze_fraud_risk, startsWithNewTag, RISK_THRESHOLD_default,
      min_def, max_def, card_ne_crypto]⟩
  unfold analyze_fraud_risk specRiskScore
  by_cases h1 : amount > 1000
  · simp [h1]
  · by_cases h2 : amount > 500
    · have h3 : amount ≤ 1000 := not_lt.mp h1
      simp [h1, h2, h3]
    · simp [h1, h2]

/-- A product record in the catalog table (price and stock are the
fields this core reads/writes). -/
structure Product where
  product_id : String
  price : ℚ
  stock : ℤ
deriving Repr, DecidableEq

/-- A requested line item `{product_id, quantity}` from the
`POST /orders` body. -/
structure ReqItem where
  product_id : String
  quantity : ℕ
deriving Repr, DecidableEq

/-- The Order-Created event payload published to SNS
(src/orders/handler.py, lines 275-289): only these four fields, no
timestamp. -/
structure OrderCreatedEvent where
  order_id : String
  customer_id : String
  total_amount : ℚ
  event_type : String
deriving Repr, DecidableEq

/-- The Inventory-Adjustment message sent to SQS
(src/orders/handler.py, lines 296-302): the order id and the validated
items. -/
structure InventoryMsg where
  order_id : String
  items : List OrderItem
deriving Repr, DecidableEq

/-- Outcome of the `requests.post` call to the payment gateway
(src/orders/handler.py, lines 214-250): a 200 response carrying a
payment id, a non-200 status, a `requests.Timeout`, or another
exception. -/
inductive PaymentOutcome where
  | success (payment_id : String)
  | badStatus (code : ℕ)
  | timeout
  | otherError
deriving Repr, DecidableEq

/-- Body of an HTTP response from the orders handler. -/
inductive RespBody where
  | errorMsg (msg : String)
  | orderResult (order_id status : String) (total_amount : ℚ)
  | ordersList (orders : List Order) (count : ℕ)
deriving Repr, DecidableEq

/-- An HTTP-style response `{statusCode, body}`. -/
structure Response where
  statusCode : ℕ
  body : RespBody
deriving Repr, DecidableEq

/-- The side effects `create_order` can perform: the payment-gateway
call, `orders_table.put_item`, the SNS publish and the SQS send. -/
structure Effects where
  paymentCalled : Bool
  ordersWritten : List Order
  eventsPublished : List OrderCreatedEvent
  inventoryMsgs : List InventoryMsg
deriving Repr, DecidableEq

/-- No side effects at all. -/
def noEffects : Effects := ⟨false, [], [], []⟩

/-- Environment of one `create_order` invocation: the products table,
the payment gateway's behaviour on this call, and the generated order
id / clock readings. -/
structure OrderEnv where
  catalog : List Product
  payment : PaymentOutcome
  new_order_id : String
  now_ms : ℕ
  created_at : String
deriving Repr, DecidableEq

/-- `products_table.get_item(Key={'product_id': product_id})`. -/
def getProduct (catalog : List Product) (pid : String) : Option Product :=
  catalog.find? fun p => p.product_id = pid

/-- The product-validation loop of `create_order`
(src/orders/handler.py, lines 151-177): walk the requested items in
order, short-circuit with the first product id whose catalog lookup
misses, otherwise build the validated items (with price and subtotal)
and accumulate the exact-decimal total. -/
def validateItems (catalog : List Product) :
    List ReqItem → Except String (List OrderItem × ℚ)
  | [] => .ok ([], 0)
  | it :: rest =>
    match getProduct catalog it.product_id with
    | none => .error it.product_id
    | some p =>
      match validateItems catalog rest with
      | .error pid => .error pid
      | .ok (vs, t) =>
        .ok (⟨it.product_id, it.quantity, p.price, p.price * it.quantity⟩ :: vs,
          p.price * it.quantity + t)

/-- The first requested product id whose catalog lookup misses, if any. -/
def firstMissingProduct (catalog : List Product) (items : List ReqItem) :
    Option String :=
  (items.find? fun it => (getProduct catalog it.product_id).isNone).map
    (·.product_id)

/-- `create_order` (src/orders/handler.py, lines 118-318):
validate the body, look every product up (404 `Product {id} not found`
on the first miss, before any payment call), call the payment gateway
(non-200 ⇒ 502, `requests.Timeout` ⇒ 504 `Payment gateway timeout`,
other error ⇒ 502 — all before any write), then write the order with
status `confirmed`, publish the Order-Created event, send the
Inventory-Adjustment message and return
`201 {order_id, status: confirmed, total_amount}`. -/
def create_order (env : OrderEnv) (customer_id : Option String)
    (items : List ReqItem) : Response × Effects :=
  if customer_id.getD "" = "" ∨ items = [] then
    (⟨400, .errorMsg "Missing customer_id or items"⟩, noEffects)
  else
    match validateItems env.catalog items with
    | .error pid =>
      (⟨404, .errorMsg ("Product " ++ pid ++ " not found")⟩, noEffects)
    | .ok (validated, total_amount) =>
      match env.payment with
      | .timeout =>
        (⟨504, .errorMsg "Payment gateway timeout"⟩,
          { noEffects with paymentCalled := true })
      | .badStatus _ =>
        (⟨502, .errorMsg "Payment gateway error"⟩,
          { noEffects with paymentCalled := true })
      | .otherError =>
        (⟨502, .errorMsg "Payment processing failed"⟩,
          { noEffects with paymentCalled := true })
      | .success payment_id =>
        let order : Order :=
          { order_id := env.new_order_id
            customer_id := customer_id.getD ""
            timestamp := env.now_ms
            items := validated
            total_amount := total_amount
            status := "confirmed"
            payment_id := payment_id
            created_at := env.created_at
            fraud_score := none
            fraud_status := none }
        (⟨201, .orderResult env.new_order_id "confirmed" total_amount⟩,
          { paymentCalled := true
            ordersWritten := [order]
            eventsPublished :=
              [⟨env.new_order_id, customer_id.getD "", total_amount,
                "order_created"⟩]
            inventoryMsgs := [⟨env.new_order_id, validated⟩] })

/-- One unfolding step of `firstMissingProduct`. -/
theorem firstMissingProduct_cons (catalog : List Product) (it : ReqItem)
    (rest : List ReqItem) :
    firstMissingProduct catalog (it :: rest) =
      match getProduct catalog it.product_id with
      | none => some it.product_id
      | some _ => firstMissingProduct catalog rest := by
  unfold firstMissingProduct
  cases hp : getProduct catalog it.product_id <;>
    simp [List.find?_cons, hp]

/-- Validation fails with a given product id exactly when that id is the
first requested id whose catalog lookup misses. -/
theorem validateItems_error_iff (catalog : List Product)
    (items : List ReqItem) (pid : String) :
    validateItems catalog items = .error pid ↔
      firstMissingProduct catalog items = some pid := by
  induction items with
  | nil => simp [validateItems, firstMissingProduct]
  | cons it rest ih =>
    rw [firstMissingProduct_cons]
    unfold validateItems
    cases hp : getProduct catalog it.product_id with
    | none => simp
    | some p =>
      rw [← ih]
      cases hv : validateItems catalog rest with
      | error q => simp
      | ok v => obtain ⟨vs, t⟩ := v; simp

/-- Validation succeeds exactly when every requested product id is in
the catalog, and then the accumulated total is the exact sum of
`price × quantity` over the validated items, each of which carries
`subtotal = price × quantity`. -/
theorem validateItems_ok_total (catalog : List Product)
    (items : List ReqItem) (vs : List OrderItem) (t : ℚ)
    (h : validateItems catalog items = .ok (vs, t)) :
    t = (vs.map fun v => v.price * (v.quantity : ℚ)).sum ∧
      ∀ v ∈ vs, v.subtotal = v.price * (v.quantity : ℚ) := by
  induction items generalizing vs t with
  | nil =>
    simp only [validateItems, Except.ok.injEq, Prod.mk.injEq] at h
    obtain ⟨h1, h2⟩ := h
    subst h1; subst h2
    simp
  | cons it rest ih =>
    unfold validateItems at h
    cases hp : getProduct catalog it.product_id with
    | none => rw [hp] at h; cases h
    | some p =>
      rw [hp] at h
      cases hv : validateItems catalog rest with
      | error q => rw [hv] at h; cases h
      | ok v =>
        obtain ⟨vs', t'⟩ := v
        rw [hv] at h
        simp only [Except.ok.injEq, Prod.mk.injEq] at h
        obtain ⟨h1, h2⟩ := h
        subst h1; subst h2
        obtain ⟨ih1, ih2⟩ := ih vs' t' hv
        constructor
        · simp [ih1]
        · intro v hv
          rcases List.mem_cons.mp hv with h | h
          · subst h; rfl
          · exact ih2 v h

/-- C4: whenever the request is well-formed, every product is found, and
the payment call raises `requests.Timeout`, `create_order` returns the
distinct 504 `Payment gateway timeout` result having called the gateway
but written no order, published no event and enqueued no inventory
message. -/
theorem C4_payment_timeout_no_order (env : OrderEnv)
    (customer_id : Option String) (items : List ReqItem)
    (vs : List OrderItem) (t : ℚ)
    (hvalid : ¬(customer_id.getD "" = "" ∨ items = []))
    (hok : validateItems env.catalog items = .ok (vs, t))
    (htimeout : env.payment = .timeout) :
    create_order env customer_id items =
      (⟨504, .errorMsg "Payment gateway timeout"⟩,
        ⟨true, [], [], []⟩) := by
  unfold create_order
  rw [if_neg hvalid, hok, htimeout]
  rfl

/-- C4 witness: a concrete valid request against a one-product catalog
whose payment call times out. -/
theorem C4_payment_timeout_no_order_witness :
    create_order ⟨[⟨"p1", 10, 5⟩], .timeout, "ord-1", 7, "t0"⟩
        (some "cust-1") [⟨"p1", 1⟩] =
      (⟨504, .errorMsg "Payment gateway timeout"⟩, ⟨true, [], [], []⟩) :=
  C4_payment_timeout_no_order ⟨[⟨"p1", 10, 5⟩], .timeout, "ord-1", 7, "t0"⟩
    (some "cust-1") [⟨"p1", 1⟩] [⟨"p1", 1, 10, 10⟩] 10
    (by decide) (by norm_num [validateItems, getProduct, List.find?]) rfl

/-- C5: whenever the request is well-formed but some requested product id
has no catalog record, `create_order` fails with
404 `Product {id} not found` naming the first missing id, with no
payment call, no order write, no event publish and no queue send. -/
theorem C5_product_not_found_short_circuit (env : OrderEnv)
    (customer_id : Option String) (items : List ReqItem) (it : ReqItem)
    (hvalid : ¬(customer_id.getD "" = "" ∨ items = []))
    (hmem : it ∈ items)
    (hmiss : getProduct env.catalog it.product_id = none) :
    ∃ pid, firstMissingProduct env.catalog items = some pid ∧
      create_order env customer_id items =
        (⟨404, .errorMsg ("Product " ++ pid ++ " not found")⟩,
          ⟨false, [], [], []⟩) := by
  have hsome : (firstMissingProduct env.catalog items).isSome := by
    unfold firstMissingProduct
    rw [Option.isSome_map', List.find?_isSome]
    exact ⟨it, hmem, by simp [hmiss]⟩
  obtain ⟨pid, hpid⟩ := Option.isSome_iff_exists.mp hsome
  refine ⟨pid, hpid, ?_⟩
  unfold create_order
  rw [if_neg hvalid, (validateItems_error_iff env.catalog items pid).mpr hpid]
  rfl

/-- C5 witness: a request for an unknown product id against a
one-product catalog. -/
theorem C5_product_not_found_short_circuit_witness :
    ∃ pid, firstMissingProduct [⟨"p1", 10, 5⟩] [⟨"p9", 1⟩] = some pid ∧
      create_order ⟨[⟨"p1", 10, 5⟩], .success "pay-1", "ord-1", 7, "t0"⟩
          (some "cust-1") [⟨"p9", 1⟩] =
        (⟨404, .errorMsg ("Product " ++ pid ++ " not found")⟩,
          ⟨false, [], [], []⟩) :=
  C5_product_not_found_short_circuit
    ⟨[⟨"p1", 10, 5⟩], .success "pay-1", "ord-1", 7, "t0"⟩
    (some "cust-1") [⟨"p9", 1⟩] ⟨"p9", 1⟩
    (by decide) (by decide) (by decide)

/-- C6: on the success path the returned `total_amount` is exactly the
sum of `price × quantity` over the validated items (exact rational,
i.e. decimal, arithmetic), and each stored subtotal is exactly
`price × quantity`. -/
theorem C6_total_amount_exact (env : OrderEnv)
    (customer_id : Option String) (items : List ReqItem)
    (vs : List OrderItem) (t : ℚ) (payment_id : String)
    (hvalid : ¬(customer_id.getD "" = "" ∨ items = []))
    (hok : validateItems env.catalog items = .ok (vs, t))
    (hpay : env.payment = .success payment_id) :
    (create_order env customer_id items).1 =
      ⟨201, .orderResult env.new_order_id "confirmed" t⟩ ∧
    t = (vs.map fun v => v.price * (v.quantity : ℚ)).sum ∧
    ∀ v ∈ vs, v.subtotal = v.price * (v.quantity : ℚ) := by
  obtain ⟨h1, h2⟩ := validateItems_ok_total env.catalog items vs t hok
  refine ⟨?_, h1, h2⟩
  unfold create_order
  rw [if_neg hvalid, hok, hpay]

/-- C6 witness: items `[{price 9.99, qty 2}, {price 5.00, qty 1}]` give
total exactly `24.98`. -/
theorem C6_total_amount_exact_witness :
    (create_order
        ⟨[⟨"p1", 9.99, 50⟩, ⟨"p2", 5.00, 50⟩], .success "pay-1", "ord-1",
          7, "t0"⟩
        (some "cust-1") [⟨"p1", 2⟩, ⟨"p2", 1⟩]).1 =
      ⟨201, .orderResult "ord-1" "confirmed" 24.98⟩ :=
  (C6_total_amount_exact
    ⟨[⟨"p1", 9.99, 50⟩, ⟨"p2", 5.00, 50⟩], .success "pay-1", "ord-1", 7, "t0"⟩
    (some "cust-1") [⟨"p1", 2⟩, ⟨"p2", 1⟩]
    [⟨"p1", 2, 9.99, 19.98⟩, ⟨"p2", 1, 5.00, 5.00⟩] 24.98 "pay-1"
    (by decide)
    (by norm_num [validateItems, getProduct, List.find?,
      (by decide : ¬ (("p1" : String) = "p2"))]) rfl).1

/-- An Order-Created notification as seen by the email consumer after
unwrapping the SNS envelope (src/email/handler.py, lines 47-57): the
published fields plus an optional `timestamp` read with
`sns_message.get('timestamp', 0)`. -/
structure SnsMsg where
  order_id : String
  customer_id : String
  event_type : String
  total_amount : ℚ
  timestamp : Option ℕ
deriving Repr, DecidableEq

/-- The message the email consumer receives for an Order-Created event
published by `create_order` (src/orders/handler.py, lines 275-289): only
`order_id`, `customer_id`, `total_amount`, `event_type` — no
`timestamp` field. -/
def toSnsMsg (e : OrderCreatedEvent) : SnsMsg :=
  ⟨e.order_id, e.customer_id, e.event_type, e.total_amount, none⟩

/-- The email value built by `generate_email`
(src/email/handler.py, lines 100-157). -/
structure EmailContent where
  toAddr : String
  fromAddr : String
  subject : String
  body : String
deriving Repr, DecidableEq

/-- `generate_email(event_type, order, customer_id)`
(src/email/handler.py, lines 100-157), with the `FROM_EMAIL`
environment default passed explicitly. -/
def generate_email (from_email event_type : String) (order : Order)
    (customer_id : String) : EmailContent :=
  if event_type = "order_created" then
    { toAddr := customer_id ++ "@example.com"
      fromAddr := from_email
      subject := "Order Confirmation - " ++ order.order_id
      body := "Thank you for your order!\n\nOrder ID: " ++ order.order_id
        ++ "\nTotal: $" ++ toString order.total_amount
        ++ "\nStatus: " ++ order.status
        ++ "\n\nWe'll send you a shipping notification soon." }
  else if event_type = "order_confirmed" then
    { toAddr := customer_id ++ "@example.com"
      fromAddr := from_email
      subject := "Payment Confirmed - " ++ order.order_id
      body := "Your payment has been confirmed!\n\nOrder ID: "
        ++ order.order_id ++ "\nTotal: $" ++ toString order.total_amount
        ++ "\n\nYour order is being prepared for shipping." }
  else if event_type = "order_shipped" then
    { toAddr := customer_id ++ "@example.com"
      fromAddr := from_email
      subject := "Order Shipped - " ++ order.order_id
      body := "Your order has been shipped!\n\nOrder ID: "
        ++ order.order_id ++ "\nTracking: TRACK-12345"
        ++ "\n\nExpected delivery: 3-5 business days" }
  else
    { toAddr := customer_id ++ "@example.com"
      fromAddr := from_email
      subject := "Order Update - " ++ order.order_id
      body := "Order " ++ order.order_id ++ " - Status: " ++ event_type }

/-- `orders_table.get_item(Key={'order_id': ..., 'timestamp': ...})`
(src/email/handler.py, lines 63-68): a point read on the composite key. -/
def getOrderByKey (table : List Order) (oid : String) (ts : ℕ) :
    Option Order :=
  table.find? fun o => o.order_id == oid && o.timestamp == ts

/-- Outcome of one email-consumer record: the `Order {id} not found`
soft-fail skip, or a generated email. -/
inductive EmailOutcome where
  | notFound (order_id : String)
  | sent (content : EmailContent)
deriving Repr, DecidableEq

/-- Processing of one notification by the email consumer's
`lambda_handler` (src/email/handler.py, lines 44-85): look the order up
by `(order_id, timestamp or 0)`; skip with `Order {id} not found` when
the read misses, otherwise generate the email. -/
def processEmailRecord (from_email : String) (table : List Order)
    (m : SnsMsg) : EmailOutcome :=
  match getOrderByKey table m.order_id (m.timestamp.getD 0) with
  | none => .notFound m.order_id
  | some order => .sent (generate_email from_email m.event_type order
      m.customer_id)

/-- C7: the Order-Created payload published by `create_order` carries no
timestamp, so the email consumer reads the order with composite key
`(order_id, 0)`; against any table whose records all have nonzero
creation timestamps the read misses, the message is skipped as
`Order {id} not found`, and no email content is generated. -/
theorem C7_email_lookup_timestamp_zero (from_email : String)
    (table : List Order) (e : OrderCreatedEvent)
    (h : ∀ o ∈ table, o.timestamp ≠ 0) :
    (toSnsMsg e).timestamp = none ∧
    (toSnsMsg e).timestamp.getD 0 = 0 ∧
    processEmailRecord from_email table (toSnsMsg e) =
      .notFound e.order_id := by
  refine ⟨rfl, rfl, ?_⟩
  unfold processEmailRecord
  have hnone : getOrderByKey table (toSnsMsg e).order_id
      ((toSnsMsg e).timestamp.getD 0) = none := by
    unfold getOrderByKey
    rw [List.find?_eq_none]
    intro o ho
    simp only [toSnsMsg, Option.getD_none, Bool.and_eq_true, beq_iff_eq,
      not_and]
    exact fun _ => h o ho
  rw [hnone]
  rfl

/-- C7 witness: one order persisted with creation timestamp
1700000000000 and the Order-Created event published for it. -/
theorem C7_email_lookup_timestamp_zero_witness :
    processEmailRecord "noreply@ecommerce-demo.com"
        [⟨"ord-1", "cust-1", 1700000000000, [], 10, "confirmed", "pay-1",
          "t0", none, none⟩]
        (toSnsMsg ⟨"ord-1", "cust-1", 10, "order_created"⟩) =
      .notFound "ord-1" :=
  (C7_email_lookup_timestamp_zero "noreply@ecommerce-demo.com"
    [⟨"ord-1", "cust-1", 1700000000000, [], 10, "confirmed", "pay-1",
      "t0", none, none⟩]
    ⟨"ord-1", "cust-1", 10, "order_created"⟩ (by decide)).2.2

/-- `products_table.update_item(Key={'product_id': ...},
UpdateExpression='SET stock = stock - :quantity', ...)`
(src/inventory/handler.py, lines 53-59): a relative decrement with no
floor check; raises (`none`) when no product record with that id (and a
`stock` attribute) exists. -/
def update_stock (pid : String) (q : ℕ) (table : List Product) :
    Option (List Product) :=
  if (getProduct table pid).isSome then
    some (table.map fun p =>
      if p.product_id = pid then { p with stock := p.stock - q } else p)
  else none

/-- The per-item loop of the inventory consumer's `lambda_handler`
(src/inventory/handler.py, lines 48-61): decrement stock item by item;
an exception aborts the message (second component `false`) but keeps the
updates already committed. -/
def applyInventoryItems : List OrderItem → List Product →
    List Product × Bool
  | [], t => (t, true)
  | it :: rest, t =>
    match update_stock it.product_id it.quantity t with
    | none => (t, false)
    | some t2 => applyInventoryItems rest t2

/-- Processing of one Inventory-Adjustment message
(src/inventory/handler.py, lines 38-63). -/
def processInventoryMessage (m : InventoryMsg) (table : List Product) :
    List Product × Bool :=
  applyInventoryItems m.items table

/-- Total quantity a message's line items request for one product id. -/
def qtySumItems (items : List OrderItem) (pid : String) : ℕ :=
  ((items.filter fun it => it.product_id == pid).map (·.quantity)).sum

/-- Normal form of the inventory per-item loop when every referenced
product exists: each product's stock drops by the summed quantity for
its id, and the message succeeds. -/
theorem applyInventoryItems_eq (items : List OrderItem)
    (t : List Product)
    (h : ∀ it ∈ items, ∃ p ∈ t, p.product_id = it.product_id) :
    applyInventoryItems items t =
      (t.map fun p =>
        { p with stock := p.stock - (qtySumItems items p.product_id : ℤ) },
        true) := by
  induction items generalizing t with
  | nil =>
    simp only [applyInventoryItems, qtySumItems, List.filter_nil,
      List.map_nil, List.sum_nil, Nat.cast_zero, sub_zero]
    exact congrArg (fun l => (l, true)) (List.map_id' t).symm
  | cons it rest ih =>
    have hhead : (getProduct t it.product_id).isSome := by
      unfold getProduct
      rw [List.find?_isSome]
      obtain ⟨p, hp, hpid⟩ := h it (List.mem_cons_self it rest)
      exact ⟨p, hp, by simp [hpid]⟩
    have hstep : update_stock it.product_id it.quantity t =
        some (t.map fun p =>
          if p.product_id = it.product_id then
            { p with stock := p.stock - (it.quantity : ℤ) } else p) := by
      unfold update_stock
      rw [if_pos hhead]
    have hrest : ∀ x ∈ rest,
        ∃ p ∈ (t.map fun p =>
          if p.product_id = it.product_id then
            { p with stock := p.stock - (it.quantity : ℤ) } else p),
          p.product_id = x.product_id := by
      intro x hx
      obtain ⟨p, hp, hpid⟩ := h x (List.mem_cons_of_mem it hx)
      by_cases hc : p.product_id = it.product_id
      · exact ⟨{ p with stock := p.stock - (it.quantity : ℤ) },
          List.mem_map.mpr ⟨p, hp, by rw [if_pos hc]⟩, hpid⟩
      · exact ⟨p, List.mem_map.mpr ⟨p, hp, by rw [if_neg hc]⟩, hpid⟩
    unfold applyInventoryItems
    rw [hstep]
    dsimp only
    rw [ih _ hrest, List.map_map]
    refine Prod.ext ?_ rfl
    simp only
    refine List.map_congr_left fun p _ => ?_
    by_cases hc : p.product_id = it.product_id
    · have hbeq : (it.product_id == p.product_id) = true := by simp [hc.symm]
      simp only [Function.comp, if_pos hc, qtySumItems, List.filter_cons, hbeq,
        eq_self_iff_true, if_true, List.map_cons, List.sum_cons, Nat.cast_add]
      congr 1
      ring
    · have hne : ¬ (it.product_id = p.product_id) := fun hh => hc (Eq.symm hh)
      have hbeq : (it.product_id == p.product_id) = false := by simp [hne]
      simp only [Function.comp, if_neg hc, qtySumItems, List.filter_cons, hbeq]
      simp

/-- C9: when every referenced product exists, one Inventory-Adjustment
message decrements each product's stock by its summed line-item quantity
(a relative, floor-less integer decrement), and applying the same
message a second time decrements by twice that amount — the consumer is
not idempotent under duplicate delivery. -/
theorem C9_inventory_not_idempotent (m : InventoryMsg)
    (t : List Product)
    (h : ∀ it ∈ m.items, ∃ p ∈ t, p.product_id = it.product_id) :
    processInventoryMessage m t =
      (t.map fun p =>
        { p with stock := p.stock - (qtySumItems m.items p.product_id : ℤ) },
        true) ∧
    (processInventoryMessage m (processInventoryMessage m t).1).1 =
      t.map fun p =>
        { p with
            stock := p.stock - 2 * (qtySumItems m.items p.product_id : ℤ) } := by
  have h1 := applyInventoryItems_eq m.items t h
  refine ⟨h1, ?_⟩
  have hpres : ∀ it ∈ m.items,
      ∃ p ∈ (processInventoryMessage m t).1, p.product_id = it.product_id := by
    intro it hit
    obtain ⟨p, hp, hpid⟩ := h it hit
    refine ⟨{ p with
      stock := p.stock - (qtySumItems m.items p.product_id : ℤ) }, ?_, hpid⟩
    unfold processInventoryMessage
    rw [h1]
    exact List.mem_map.mpr ⟨p, hp, rfl⟩
  have h2 := applyInventoryItems_eq m.items (processInventoryMessage m t).1
    hpres
  unfold processInventoryMessage at h2 ⊢
  rw [h2]
  conv_lhs => rw [h1]
  simp only [List.map_map]
  refine List.map_congr_left fun p _ => ?_
  simp only [Function.comp]
  congr 1
  ring

/-- C9 witness: a message with quantity 3 against a product with stock 1:
one delivery leaves stock −2, a duplicate delivery leaves stock −5
(twice the decrement, and negative — no floor check). -/
theorem C9_inventory_not_idempotent_witness :
    processInventoryMessage ⟨"ord-1", [⟨"p1", 3, 10, 30⟩]⟩
        [⟨"p1", 10, 1⟩] =
      ([⟨"p1", 10, -2⟩], true) ∧
    (processInventoryMessage ⟨"ord-1", [⟨"p1", 3, 10, 30⟩]⟩
        (processInventoryMessage ⟨"ord-1", [⟨"p1", 3, 10, 30⟩]⟩
          [⟨"p1", 10, 1⟩]).1).1 =
      [⟨"p1", 10, -5⟩] := by
  have h := C9_inventory_not_idempotent ⟨"ord-1", [⟨"p1", 3, 10, 30⟩]⟩
    [⟨"p1", 10, 1⟩]
    (by intro it hit
        simp only [List.mem_singleton] at hit
        exact ⟨⟨"p1", 10, 1⟩, List.mem_singleton.mpr rfl, by rw [hit]⟩)
  refine ⟨?_, ?_⟩
  · rw [h.1]
    norm_num [qtySumItems]
  · rw [h.2]
    norm_num [qtySumItems]

/-- A typed DynamoDB stream attribute value
(src/stream_processor/handler.py, lines 176-201): string, number,
boolean, nested map, or list. -/
inductive AttrVal where
  | S (s : String)
  | N (n : ℚ)
  | BOOL (b : Bool)
  | M (m : List (String × AttrVal))
  | L (l : List AttrVal)

mutual

/-- Structural Boolean equality on attribute values (Python `!=` on the
decoded dicts). -/
def AttrVal.beq : AttrVal → AttrVal → Bool
  | .S a, .S b => a == b
  | .N a, .N b => a == b
  | .BOOL a, .BOOL b => a == b
  | .M a, .M b => AttrVal.beqPairs a b
  | .L a, .L b => AttrVal.beqMany a b
  | _, _ => false

/-- Boolean equality on attribute maps. -/
def AttrVal.beqPairs : List (String × AttrVal) → List (String × AttrVal) →
    Bool
  | [], [] => true
  | (k1, v1) :: r1, (k2, v2) :: r2 =>
    k1 == k2 && AttrVal.beq v1 v2 && AttrVal.beqPairs r1 r2
  | _, _ => false

/-- Boolean equality on attribute lists. -/
def AttrVal.beqMany : List AttrVal → List AttrVal → Bool
  | [], [] => true
  | v1 :: r1, v2 :: r2 => AttrVal.beq v1 v2 && AttrVal.beqMany r1 r2
  | _, _ => false

end

/-- A stream image: the typed key-value attribute map of an order
record. -/
def Image := List (String × AttrVal)

/-- `image.get('status', {}).get('S', 'unknown')`
(src/stream_processor/handler.py, lines 126-127). -/
def statusOfImage (img : Image) : String :=
  match List.lookup "status" img with
  | some (.S v) => v
  | _ => "unknown"

/-- Python `old_fraud_score != new_fraud_score` on the optional
attribute dicts. -/
def optAttrBeq : Option AttrVal → Option AttrVal → Bool
  | none, none => true
  | some a, some b => AttrVal.beq a b
  | _, _ => false

/-- The external side effects a MODIFY record can trigger
(src/stream_processor/handler.py): `handle_order_shipped` calls,
`handle_order_cancelled` calls, and high-risk review flags. -/
structure StreamEffects where
  shipped_calls : List String
  cancelled_calls : List String
  review_flags : List String
deriving Repr, DecidableEq

/-- Result of `handle_order_update` on one MODIFY record: the effects
triggered, plus whether the record raised (a missing/non-string
`order_id`, or a changed non-numeric `fraud_score` — in which case the
status effects already triggered are kept). -/
structure UpdateResult where
  effects : StreamEffects
  errored : Bool
deriving Repr, DecidableEq

/-- `handle_order_update` (src/stream_processor/handler.py,
lines 110-153): diff `status` between the old and new images — on a
change to `shipped` call `handle_order_shipped`, on a change to
`cancelled` call `handle_order_cancelled`, otherwise nothing;
independently, a changed numeric `fraud_score` of at least 0.7 flags the
order for review. -/
def handle_order_update (old_image new_image : Image) : UpdateResult :=
  match List.lookup "order_id" new_image with
  | some (.S order_id) =>
    let old_status := statusOfImage old_image
    let new_status := statusOfImage new_image
    let statusEffects : List String × List String :=
      if old_status = new_status then ([], [])
      else if new_status = "shipped" then ([order_id], [])
      else if new_status = "cancelled" then ([], [order_id])
      else ([], [])
    match List.lookup "fraud_score" new_image with
    | some v =>
      if optAttrBeq (List.lookup "fraud_score" old_image) (some v) then
        ⟨⟨statusEffects.1, statusEffects.2, []⟩, false⟩
      else
        match v with
        | .N score =>
          ⟨⟨statusEffects.1, statusEffects.2,
            if score ≥ 0.7 then [order_id] else []⟩, false⟩
        | _ => ⟨⟨statusEffects.1, statusEffects.2, []⟩, true⟩
    | none => ⟨⟨statusEffects.1, statusEffects.2, []⟩, false⟩
  | _ => ⟨⟨[], [], []⟩, true⟩

/-- C8: on a MODIFY record whose new image has a string `order_id`, a
status change whose new value is `shipped` triggers the shipment side
effect exactly once (and no cancellation side effect), and an unchanged
status triggers neither shipment nor cancellation side effects. -/
theorem C8_status_transition_effects (old_image new_image : Image)
    (oid : String)
    (hid : List.lookup "order_id" new_image = some (.S oid)) :
    (statusOfImage old_image ≠ statusOfImage new_image →
      statusOfImage new_image = "shipped" →
      (handle_order_update old_image new_image).effects.shipped_calls = [oid]
        ∧ (handle_order_update old_image new_image).effects.cancelled_calls
          = []) ∧
    (statusOfImage old_image = statusOfImage new_image →
      (handle_order_update old_image new_image).effects.shipped_calls = []
        ∧ (handle_order_update old_image new_image).effects.cancelled_calls
          = []) := by
  unfold handle_order_update
  rw [hid]
  dsimp only
  constructor
  · intro hne hshipped
    rw [if_neg hne, if_pos hshipped]
    cases hfs : List.lookup "fraud_score" new_image with
    | none => exact ⟨rfl, rfl⟩
    | some v =>
      dsimp only
      by_cases hb : optAttrBeq (List.lookup "fraud_score" old_image) (some v)
      · rw [if_pos hb]; exact ⟨rfl, rfl⟩
      · rw [if_neg hb]
        cases v <;> simp
  · intro heq
    rw [if_pos heq]
    cases hfs : List.lookup "fraud_score" new_image with
    | none => exact ⟨rfl, rfl⟩
    | some v =>
      dsimp only
      by_cases hb : optAttrBeq (List.lookup "fraud_score" old_image) (some v)
      · rw [if_pos hb]; exact ⟨rfl, rfl⟩
      · rw [if_neg hb]
        cases v <;> simp

/-- C8 witness: a `confirmed → shipped` MODIFY triggers exactly one
shipment call and no cancellation, and a `confirmed → confirmed` MODIFY
triggers neither. -/
theorem C8_status_transition_effects_witness :
    ((handle_order_update
        [("order_id", .S "ord-1"), ("status", .S "confirmed")]
        [("order_id", .S "ord-1"),
          ("status", .S "shipped")]).effects.shipped_calls = ["ord-1"] ∧
      (handle_order_update
        [("order_id", .S "ord-1"), ("status", .S "confirmed")]
        [("order_id", .S "ord-1"),
          ("status", .S "shipped")]).effects.cancelled_calls = []) ∧
    ((handle_order_update
        [("order_id", .S "ord-1"), ("status", .S "confirmed")]
        [("order_id", .S "ord-1"),
          ("status", .S "confirmed")]).effects.shipped_calls = [] ∧
      (handle_order_update
        [("order_id", .S "ord-1"), ("status", .S "confirmed")]
        [("order_id", .S "ord-1"),
          ("status", .S "confirmed")]).effects.cancelled_calls = []) := by
  constructor
  · exact (C8_status_transition_effects
      [("order_id", .S "ord-1"), ("status", .S "confirmed")]
      [("order_id", .S "ord-1"), ("status", .S "shipped")] "ord-1"
      (by simp [List.lookup])).1
      (by simp [statusOfImage, List.lookup]) (by simp [statusOfImage, List.lookup])
  · exact (C8_status_transition_effects
      [("order_id", .S "ord-1"), ("status", .S "confirmed")]
      [("order_id", .S "ord-1"), ("status", .S "confirmed")] "ord-1"
      (by simp [List.lookup])).2
      (by simp [statusOfImage, List.lookup])

/-- "More recent first" on orders: the secondary index's sort key is the
creation timestamp. -/
def tsDesc (a b : Order) : Prop := b.timestamp ≤ a.timestamp

instance : DecidableRel tsDesc := fun a b =>
  Nat.decLe b.timestamp a.timestamp

instance : IsTotal Order tsDesc :=
  ⟨fun a b => le_total b.timestamp a.timestamp⟩

instance : IsTrans Order tsDesc :=
  ⟨fun _ _ _ hab hbc => le_trans hbc hab⟩

/-- Modelled from the spec: the query on the `CustomerIndex` secondary
index with `ScanIndexForward=False` (src/orders/handler.py,
lines 336-344).  The index's key schema lives in the deployment
configuration, which is not among the sources; per the spec (§4.1) the
query returns the customer's orders newest-first, i.e. sorted by
creation timestamp descending. -/
def queryCustomerIndexDesc (table : List Order) (cid : String) :
    List Order :=
  List.insertionSort tsDesc (table.filter fun o => o.customer_id == cid)

/-- `list_orders` (src/orders/handler.py, lines 321-359): 400 when
`customer_id` is missing (or empty — Python falsiness), otherwise the
query result bounded by `Limit=20`, returned with its count.  The code
path performs no write, publish or send. -/
def list_orders (table : List Order) (customer_id : Option String) :
    Response × Effects :=
  if customer_id.getD "" = "" then
    (⟨400, .errorMsg "customer_id required"⟩, noEffects)
  else
    let orders := (queryCustomerIndexDesc table (customer_id.getD "")).take 20
    (⟨200, .ordersList orders orders.length⟩, noEffects)

/-- C10: `listOrders` without a customer id fails with 400; for a
customer with more than 20 orders it returns exactly 20 orders — the
most recent ones, newest-first (strictly so when the creation
timestamps are distinct) — and performs no side effects. -/
theorem C10_list_orders_top20 (table : List Order) (c : String)
    (hc : ¬(c = ""))
    (hcount : 20 < (table.filter fun o => o.customer_id == c).length) :
    list_orders table none =
      (⟨400, .errorMsg "customer_id required"⟩, noEffects) ∧
    list_orders table (some c) =
      (⟨200, .ordersList ((queryCustomerIndexDesc table c).take 20)
        ((queryCustomerIndexDesc table c).take 20).length⟩, noEffects) ∧
    ((queryCustomerIndexDesc table c).take 20).length = 20 ∧
    ((queryCustomerIndexDesc table c).take 20).Pairwise
      (fun a b => b.timestamp ≤ a.timestamp) ∧
    ((table.filter fun o => o.customer_id == c).Pairwise
        (fun a b => a.timestamp ≠ b.timestamp) →
      ((queryCustomerIndexDesc table c).take 20).Pairwise
        (fun a b => b.timestamp < a.timestamp)) ∧
    (∀ o ∈ table.filter fun o => o.customer_id == c,
      o ∉ (queryCustomerIndexDesc table c).take 20 →
      ∀ q ∈ (queryCustomerIndexDesc table c).take 20,
        o.timestamp ≤ q.timestamp) := by
  have hS : List.Sorted tsDesc (queryCustomerIndexDesc table c) :=
    List.sorted_insertionSort tsDesc _
  have hperm : List.Perm (queryCustomerIndexDesc table c)
      (table.filter fun o => o.customer_id == c) :=
    List.perm_insertionSort tsDesc _
  have hlen : (queryCustomerIndexDesc table c).length =
      (table.filter fun o => o.customer_id == c).length := by
    unfold queryCustomerIndexDesc
    exact List.length_insertionSort tsDesc _
  refine ⟨rfl, ?_, ?_, hS.take, ?_, ?_⟩
  · unfold list_orders
    rw [if_neg (by simpa using hc)]
    rfl
  · rw [List.length_take, hlen]
    exact Nat.min_eq_left (Nat.le_of_lt hcount)
  · intro hdist
    have hdistS : (queryCustomerIndexDesc table c).Pairwise
        (fun a b => a.timestamp ≠ b.timestamp) :=
      (hperm.pairwise_iff fun h => h.symm).mpr hdist
    have : (queryCustomerIndexDesc table c).Pairwise
        (fun a b => b.timestamp < a.timestamp) := by
      have hand := List.Pairwise.and hS hdistS
      exact hand.imp fun h =>
        lt_of_le_of_ne h.1 fun he => h.2 he.symm
    exact this.take
  · intro o ho hnot q hq
    have hoS : o ∈ queryCustomerIndexDesc table c := hperm.mem_iff.mpr ho
    have hsplit := List.take_append_drop 20 (queryCustomerIndexDesc table c)
    have hpw : ((queryCustomerIndexDesc table c).take 20 ++
        (queryCustomerIndexDesc table c).drop 20).Pairwise tsDesc := by
      rw [hsplit]; exact hS
    obtain ⟨-, -, hcross⟩ := List.pairwise_append.mp hpw
    have : o ∈ (queryCustomerIndexDesc table c).take 20 ++
        (queryCustomerIndexDesc table c).drop 20 := by
      rw [hsplit]; exact hoS
    rcases List.mem_append.mp this with h | h
    · exact absurd h hnot
    · exact hcross q hq o h

/-- The concrete 21-order single-customer table used as the C10
witness: creation timestamps 0 to 20. -/
def c10Table : List Order :=
  (List.range 21).map fun i =>
    ⟨"o", "c1", i, [], 0, "confirmed", "p", "t", none, none⟩

/-- C10 witness: for a customer with 21 orders, the listing returns
exactly 20 orders, strictly newest-first, with no side effects. -/
theorem C10_list_orders_top20_witness :
    list_orders c10Table (some "c1") =
      (⟨200, .ordersList ((queryCustomerIndexDesc c10Table "c1").take 20)
        ((queryCustomerIndexDesc c10Table "c1").take 20).length⟩,
        noEffects) ∧
    ((queryCustomerIndexDesc c10Table "c1").take 20).length = 20 ∧
    ((queryCustomerIndexDesc c10Table "c1").take 20).Pairwise
      (fun a b => b.timestamp < a.timestamp) := by
  have h := C10_list_orders_top20 c10Table "c1" (by decide) (by decide)
  exact ⟨h.2.1, h.2.2.1, h.2.2.2.2.1 (by decide)⟩

end EcomSpec
